import Mathlib

/-!
# Shallow embedding of the yamux session multiplexer (`session.go`)

The session state, its public operations (`Open`, `AcceptStream`, `Close`,
`Ping`, `GoAway`) and the frame handlers of the receive loop
(`handleStreamMessage`, `incomingStream`, `handlePing`, `handleGoAway`,
one iteration of `recv`) are translated from `src/session.go` into pure
functions over an explicit `Session` record.  Effects on the outside world
are made explicit fields of the state: headers handed to the send queue
accumulate in `sent`, the closed transport is the flag `connClosed`, the
closed shutdown channel is the flag `shutdownChClosed`.  Go channels are
modelled as lists (the accept queue) and the Go maps as association lists.
`uint32` arithmetic is `Nat` with reduction modulo `2^32` where the code
can overflow.

Pieces of the repository that are not in `session.go` (the frame constants
of `const.go`, and the stream internals of `stream.go`) are modelled from
the spec; each such definition says so in its doc comment.
-/

namespace Yamux

/-- `2^32`, the number of values of a Go `uint32`. -/
def uint32Card : Nat := 4294967296

/-- `math.MaxUint32`. -/
def maxUint32 : Nat := 4294967295

/-- Reduce a `Nat` to the range of a Go `uint32`. -/
def u32 (n : Nat) : Nat := n % uint32Card

/-- Modelled from the spec: protocol version byte (must be 0), from the
frame-codec section; the constant lives outside `session.go`. -/
def protoVersion : Nat := 0

/-- Modelled from the spec: frame type `Data = 0`. -/
def typeData : Nat := 0

/-- Modelled from the spec: frame type `WindowUpdate = 1`. -/
def typeWindowUpdate : Nat := 1

/-- Modelled from the spec: frame type `Ping = 2`. -/
def typePing : Nat := 2

/-- Modelled from the spec: frame type `GoAway = 3`. -/
def typeGoAway : Nat := 3

/-- Modelled from the spec: flag `SYN = 0x1`. -/
def flagSYN : Nat := 1

/-- Modelled from the spec: flag `ACK = 0x2`. -/
def flagACK : Nat := 2

/-- Modelled from the spec: flag `FIN = 0x4`. -/
def flagFIN : Nat := 4

/-- Modelled from the spec: flag `RST = 0x8`. -/
def flagRST : Nat := 8

/-- Modelled from the spec: go-away reason `Normal = 0`. -/
def goAwayNormal : Nat := 0

/-- Modelled from the spec: go-away reason `ProtoErr = 1`. -/
def goAwayProtoErr : Nat := 1

/-- Modelled from the spec: go-away reason `InternalErr = 2`. -/
def goAwayInternalErr : Nat := 2

/-- Modelled from the spec: the default initial stream receive window
(256 KiB), advertised by the initial WindowUpdate of a locally opened
stream. -/
def initialStreamWindow : Nat := 262144

/-- The decoded 12-byte frame header: version, type, flags, stream id and
the length word (byte count for Data, credit delta for WindowUpdate,
ping id for Ping, reason code for GoAway). -/
structure Header where
  version : Nat
  msgType : Nat
  flags : Nat
  streamID : Nat
  length : Nat
deriving Repr, DecidableEq

/-- `hdr.encode(msgType, flags, streamID, length)`: builds a header with
version `protoVersion` and the given fields. -/
def encodeHeader (msgType flags streamID length : Nat) : Header :=
  { version := protoVersion, msgType := msgType, flags := flags,
    streamID := streamID, length := length }

/-- The error values of `session.go`.  The three `fmt.Errorf` strings of
`handleGoAway` are distinct constructors. -/
inductive YamuxErr where
  | sessionShutdown
  | remoteGoAway
  | streamsExhausted
  | duplicateStream
  | missingStream
  | invalidVersion
  | invalidMsgType
  | protoError
  | remoteInternalError
  | unexpectedGoAway
deriving Repr, DecidableEq

/-- Modelled from the spec: the stream state machine's states
(`Init, SynSent, SynReceived, Established, LocalClose, RemoteClose,
Closed, Reset`); `stream.go` is outside `session.go`. -/
inductive StreamState where
  | streamInit
  | streamSYNSent
  | streamSYNReceived
  | streamEstablished
  | streamLocalClose
  | streamRemoteClose
  | streamClosed
  | streamReset
deriving Repr, DecidableEq

/-- The per-stream data the session claims depend on: the id and the
state-machine state.  Buffers and windows are stream internals no claim
touches. -/
structure Stream where
  id : Nat
  state : StreamState
deriving Repr, DecidableEq

/-- Modelled from the spec: `newStream(session, id, state)` constructs a
stream in the given state. -/
def newStream (id : Nat) (state : StreamState) : Stream :=
  { id := id, state := state }

/-- Modelled from the spec: `stream.forceClose()` transitions the stream
to `Closed` (state machine edge: any state, on session shutdown, to
`Closed`). -/
def Stream.forceClose (st : Stream) : Stream :=
  { st with state := StreamState.streamClosed }

/-- The session state of `session.go`.  The `sent` list records every
header handed to the send queue, in order; `shutdownChClosed` models
`close(s.shutdownCh)`; `connClosed` models `s.conn.Close()`. -/
structure Session where
  client : Bool
  remoteGoAway : Bool
  localGoAway : Bool
  nextStreamID : Nat
  streams : List (Nat × Stream)
  acceptBacklog : Nat
  acceptCh : List Nat
  pings : List Nat
  pingID : Nat
  shutdown : Bool
  shutdownErr : Option YamuxErr
  shutdownChClosed : Bool
  connClosed : Bool
  sent : List Header
deriving Repr, DecidableEq

/-- `newSession(config, conn, client)`: fresh maps and channels, and
`nextStreamID = 1` for a client, `2` for a server. -/
def newSession (acceptBacklog : Nat) (client : Bool) : Session :=
  { client := client
    remoteGoAway := false
    localGoAway := false
    nextStreamID := if client then 1 else 2
    streams := []
    acceptBacklog := acceptBacklog
    acceptCh := []
    pings := []
    pingID := 0
    shutdown := false
    shutdownErr := none
    shutdownChClosed := false
    connClosed := false
    sent := [] }

/-- `s.isShutdown()`: non-blocking test of the shutdown channel. -/
def Session.isShutdown (s : Session) : Bool := s.shutdownChClosed

/-- `delete(s.streams, id)` on the association-list stream table. -/
def streamsDelete (streams : List (Nat × Stream)) (id : Nat) :
    List (Nat × Stream) :=
  streams.filter (fun p => p.1 ≠ id)

/-- `s.sendNoWait(hdr)`: enqueue a header without blocking; after the
shutdown channel is closed the frame is dropped and `ErrSessionShutdown`
is returned (every caller in `session.go` ignores this error). -/
def Session.sendNoWait (s : Session) (hdr : Header) :
    Session × Option YamuxErr :=
  if s.shutdownChClosed then (s, some YamuxErr.sessionShutdown)
  else ({ s with sent := s.sent ++ [hdr] }, none)

/-- `s.waitForSend(hdr, body)`: the blocking send path.  Once the
shutdown channel is closed the send loop has exited and the path fails
with `ErrSessionShutdown`; otherwise the write is handed to the send
loop (a healthy transport write is modelled as succeeding). -/
def Session.waitForSend (s : Session) (hdr : Header) :
    Session × Option YamuxErr :=
  if s.shutdownChClosed then (s, some YamuxErr.sessionShutdown)
  else ({ s with sent := s.sent ++ [hdr] }, none)

/-- `s.goAway(reason)`: best-effort emission of a GoAway header. -/
def Session.goAwaySend (s : Session) (reason : Nat) : Session :=
  (s.sendNoWait (encodeHeader typeGoAway 0 0 reason)).1

/-- `s.Close()`: idempotent shutdown.  The first call sets `shutdown`,
defaults `shutdownErr` to `ErrSessionShutdown`, closes the shutdown
channel and the transport, and force-closes every stream in the table;
a later call returns `nil` leaving the state unchanged. -/
def Session.Close (s : Session) : Session × Option YamuxErr :=
  if s.shutdown then (s, none)
  else
    ({ s with
        shutdown := true
        shutdownErr := some (s.shutdownErr.getD YamuxErr.sessionShutdown)
        shutdownChClosed := true
        connClosed := true
        streams := s.streams.map (fun p => (p.1, p.2.forceClose)) }, none)

/-- `s.exitErr(err)`: record the error (unconditionally overwriting
`s.shutdownErr`) and close the session. -/
def Session.exitErr (s : Session) (e : YamuxErr) : Session :=
  (Session.Close { s with shutdownErr := some e }).1

/-- `s.Open()`: fail on shutdown or remote go-away; fail
`ErrStreamsExhausted` when `nextStreamID >= math.MaxUint32 - 1`;
otherwise take the id, bump `nextStreamID` by 2 (as a `uint32`),
register the stream in `Init` state and emit its initial WindowUpdate
with SYN (the emission is modelled from the spec: `stream.go` holds
`sendWindowUpdate`).  Returns the new stream's id. -/
def Session.Open (s : Session) : Session × Except YamuxErr Nat :=
  if s.isShutdown then (s, Except.error YamuxErr.sessionShutdown)
  else if s.remoteGoAway then (s, Except.error YamuxErr.remoteGoAway)
  else
    let id := s.nextStreamID
    if id ≥ maxUint32 - 1 then (s, Except.error YamuxErr.streamsExhausted)
    else
      let s1 := { s with
        nextStreamID := u32 (id + 2)
        streams := (id, newStream id StreamState.streamInit) :: s.streams }
      let s2 := (s1.sendNoWait
        (encodeHeader typeWindowUpdate flagSYN id initialStreamWindow)).1
      (s2, Except.ok id)

/-- `s.AcceptStream()`: returns the next queued stream id, or, once the
shutdown channel is closed and the queue is empty, fails with the
recorded `s.shutdownErr` (`none` means the call blocks). -/
def Session.AcceptStream (s : Session) :
    Option (Session × Except YamuxErr Nat) :=
  match s.acceptCh with
  | id :: rest => some ({ s with acceptCh := rest }, Except.ok id)
  | [] =>
    if s.shutdownChClosed then
      some (s, Except.error (s.shutdownErr.getD YamuxErr.sessionShutdown))
    else none

/-- `s.Ping()`: allocate a ping id, register the waiter, send
`Ping(SYN, id)` through the blocking path, then wait for the ACK; the
wait fails with `ErrSessionShutdown` when the shutdown channel is
closed, and is modelled as succeeding otherwise (the round-trip time is
not modelled). -/
def Session.Ping (s : Session) : Session × Except YamuxErr Unit :=
  let id := s.pingID
  let s1 := { s with pingID := u32 (id + 1), pings := id :: s.pings }
  match s1.waitForSend (encodeHeader typePing flagSYN 0 id) with
  | (s2, some e) => (s2, Except.error e)
  | (s2, none) =>
    if s2.shutdownChClosed then (s2, Except.error YamuxErr.sessionShutdown)
    else (s2, Except.ok ())

/-- `s.GoAway()`: sets `localGoAway` and best-effort emits
`GoAway(Normal)`; never fails. -/
def Session.GoAway (s : Session) : Session × Option YamuxErr :=
  ((Session.goAwaySend { s with localGoAway := true } goAwayNormal), none)

/-- `s.incomingStream(id)`: on local go-away, RST-reject with a
WindowUpdate+RST header and create nothing; on a duplicate id, send
`GoAway(ProtoErr)` and shut the session down with `ErrDuplicateStream`;
otherwise register the stream in `SynReceived`, and if the accept queue
is full remove it again and RST-reject.  Always returns `nil`. -/
def Session.incomingStream (s : Session) (id : Nat) :
    Session × Option YamuxErr :=
  if s.localGoAway then
    ((s.sendNoWait (encodeHeader typeWindowUpdate flagRST id 0)).1, none)
  else
    match s.streams.lookup id with
    | some _ =>
      (Session.exitErr (s.goAwaySend goAwayProtoErr) YamuxErr.duplicateStream,
        none)
    | none =>
      let s1 := { s with
        streams := (id, newStream id StreamState.streamSYNReceived) :: s.streams }
      if s1.acceptCh.length < s1.acceptBacklog then
        ({ s1 with acceptCh := s1.acceptCh ++ [id] }, none)
      else
        let s2 := { s1 with streams := streamsDelete s1.streams id }
        ((s2.sendNoWait (encodeHeader typeWindowUpdate flagRST id 0)).1, none)

/-- `s.handleStreamMessage(hdr)`: on SYN, run `incomingStream` first;
then look the stream up, and if it is absent send `GoAway(ProtoErr)`
and fail with `ErrMissingStream`.  The per-stream window credit and
data ingest of an existing stream are `stream.go` internals, modelled
from the spec as succeeding on a healthy stream. -/
def Session.handleStreamMessage (s : Session) (hdr : Header) :
    Session × Option YamuxErr :=
  let id := hdr.streamID
  let flags := hdr.flags
  let step1 :=
    if flags &&& flagSYN = flagSYN then s.incomingStream id else (s, none)
  match step1 with
  | (s1, some e) => (s1, some e)
  | (s1, none) =>
    match s1.streams.lookup id with
    | none => (s1.goAwaySend goAwayProtoErr, some YamuxErr.missingStream)
    | some _ => (s1, none)

/-- `s.handlePing(hdr)`: a SYN ping is answered with `Ping(ACK)` carrying
the same id; otherwise the pending waiter for that id, if any, is woken
and removed, and an unknown id is ignored.  Never fails. -/
def Session.handlePing (s : Session) (hdr : Header) :
    Session × Option YamuxErr :=
  let flags := hdr.flags
  let pingID := hdr.length
  if flags &&& flagSYN = flagSYN then
    ((s.sendNoWait (encodeHeader typePing flagACK 0 pingID)).1, none)
  else
    if s.pings.contains pingID then
      ({ s with pings := s.pings.filter (fun x => x ≠ pingID) }, none)
    else (s, none)

/-- `s.handleGoAway(hdr)`: reason `Normal` sets `remoteGoAway`; reasons
`ProtoErr`, `InternalErr` and anything else fail with the corresponding
error. -/
def Session.handleGoAway (s : Session) (hdr : Header) :
    Session × Option YamuxErr :=
  let code := hdr.length
  if code = goAwayNormal then ({ s with remoteGoAway := true }, none)
  else if code = goAwayProtoErr then (s, some YamuxErr.protoError)
  else if code = goAwayInternalErr then (s, some YamuxErr.remoteInternalError)
  else (s, some YamuxErr.unexpectedGoAway)

/-- One iteration of the receive loop `s.recv()` on a decoded header:
returns the new session state and whether the loop keeps running.  A
handler error goes through `exitErr`, which records it and closes the
session. -/
def Session.recvStep (s : Session) (hdr : Header) : Session × Bool :=
  if s.isShutdown then (s, false)
  else if hdr.version ≠ protoVersion then
    (s.exitErr YamuxErr.invalidVersion, false)
  else
    let t := hdr.msgType
    if t = typeData ∨ t = typeWindowUpdate then
      match s.handleStreamMessage hdr with
      | (s1, some e) => (s1.exitErr e, false)
      | (s1, none) => (s1, true)
    else if t = typeGoAway then
      match s.handleGoAway hdr with
      | (s1, some e) => (s1.exitErr e, false)
      | (s1, none) => (s1, true)
    else if t = typePing then
      match s.handlePing hdr with
      | (s1, some e) => (s1.exitErr e, false)
      | (s1, none) => (s1, true)
    else (s.exitErr YamuxErr.invalidMsgType, false)

/-- Iterate `Open` and collect the ids of the successfully opened
streams, stopping at the first failure. -/
def Session.openN (s : Session) : Nat → Session × List Nat
  | 0 => (s, [])
  | n + 1 =>
    match s.Open with
    | (s1, Except.ok id) =>
      let r := s1.openN n
      (r.1, id :: r.2)
    | (s1, Except.error _) => (s1, [])

/-! ## Helper lemmas -/

/-- `exitErr` always records exactly the given error and leaves the
session marked shut down, whether or not `Close` was a no-op. -/
theorem exitErr_shutdown (s : Session) (e : YamuxErr) :
    (s.exitErr e).shutdown = true ∧ (s.exitErr e).shutdownErr = some e := by
  unfold Session.exitErr Session.Close
  by_cases hsd : s.shutdown = true <;> simp [hsd]

/-- `exitErr` does not touch the list of emitted headers. -/
theorem exitErr_sent (s : Session) (e : YamuxErr) :
    (s.exitErr e).sent = s.sent := by
  unfold Session.exitErr Session.Close
  by_cases hsd : s.shutdown = true <;> simp [hsd]

/-- `exitErr` does not touch `remoteGoAway`. -/
theorem exitErr_remoteGoAway (s : Session) (e : YamuxErr) :
    (s.exitErr e).remoteGoAway = s.remoteGoAway := by
  unfold Session.exitErr Session.Close
  by_cases hsd : s.shutdown = true <;> simp [hsd]

/-- A successful `Open`: the returned id is the prior `nextStreamID`,
the counter advances by 2, and the guard flags are untouched. -/
theorem open_ok (s : Session)
    (h1 : s.shutdownChClosed = false) (h2 : s.remoteGoAway = false)
    (h3 : s.nextStreamID < maxUint32 - 1) :
    (s.Open).2 = Except.ok s.nextStreamID ∧
    (s.Open).1.nextStreamID = s.nextStreamID + 2 ∧
    (s.Open).1.shutdownChClosed = false ∧
    (s.Open).1.remoteGoAway = false := by
  have hge : ¬ s.nextStreamID ≥ maxUint32 - 1 := not_le.mpr h3
  have hmod : u32 (s.nextStreamID + 2) = s.nextStreamID + 2 := by
    apply Nat.mod_eq_of_lt
    unfold maxUint32 at h3
    unfold uint32Card
    omega
  unfold Session.Open Session.isShutdown Session.sendNoWait
  simp [h1, h2, hge, hmod]

/-- Iterated successful opens yield exactly the ids
`nextStreamID, nextStreamID + 2, …, nextStreamID + 2(n-1)`. -/
theorem openN_ids_eq : ∀ (n : Nat) (s : Session),
    s.shutdownChClosed = false → s.remoteGoAway = false →
    s.nextStreamID + 2 * n < maxUint32 - 1 →
    (s.openN n).2 = (List.range n).map (fun i => s.nextStreamID + 2 * i) := by
  intro n
  induction n with
  | zero => intro s _ _ _; rfl
  | succ n ih =>
    intro s h1 h2 h3
    have h3' : s.nextStreamID < maxUint32 - 1 := by omega
    obtain ⟨hok, hnext, hch, hga⟩ := open_ok s h1 h2 h3'
    have hpair : s.Open = ((s.Open).1, Except.ok s.nextStreamID) := by
      rw [← hok]
    have hih : ((s.Open).1.openN n).2 =
        (List.range n).map (fun i => (s.nextStreamID + 2) + 2 * i) := by
      rw [← hnext]
      exact ih (s.Open).1 hch hga (by rw [hnext]; omega)
    have hstep : (s.openN (n + 1)).2 =
        s.nextStreamID :: ((s.Open).1.openN n).2 := by
      conv_lhs => simp only [Session.openN]
      rw [hpair]
    have hfun : ((fun i => s.nextStreamID + 2 * i) ∘ Nat.succ) =
        (fun i => s.nextStreamID + 2 + 2 * i) := by
      funext i
      simp only [Function.comp_apply]
      omega
    rw [hstep, hih, List.range_succ_eq_map, List.map_cons, List.map_map, hfun]
    simp

/-! ## Theorems -/

/-- The C4 boundary scenario: a healthy session whose next stream id is
`2^32 - 2 = 4294967294`, strictly below `2^32 - 1`. -/
def c4Sess : Session :=
  { newSession 256 true with nextStreamID := 4294967294 }

/-- C4 counterexample: at `nextStreamID = 2^32 - 2`, which is strictly
below the claimed `2^32 - 1` exhaustion threshold, `Open` on a healthy
session nevertheless fails with `StreamsExhausted`: the code's guard is
`id >= math.MaxUint32 - 1`, that is `>= 2^32 - 2`. -/
theorem c4_open_fails_below_claimed_threshold :
    (4294967294 : Nat) < 4294967295 ∧
    c4Sess.shutdownChClosed = false ∧
    c4Sess.remoteGoAway = false ∧
    c4Sess.nextStreamID = 4294967294 ∧
    (c4Sess.Open).2 = Except.error YamuxErr.streamsExhausted := by
  exact ⟨by decide, rfl, rfl, rfl, rfl⟩

/-- C4 (amended): with the shutdown and remote-go-away guards passed,
`Open` fails with `StreamsExhausted` exactly when
`nextStreamID >= 2^32 - 2` (the code's `math.MaxUint32 - 1`), and
otherwise returns a stream whose id is the prior `nextStreamID`, leaving
`nextStreamID` incremented by exactly 2. -/
theorem c4_open_exhaustion_iff (s : Session)
    (hs : s.shutdownChClosed = false) (hg : s.remoteGoAway = false) :
    ((s.Open).2 = Except.error YamuxErr.streamsExhausted ↔
      s.nextStreamID ≥ maxUint32 - 1) ∧
    (s.nextStreamID < maxUint32 - 1 →
      (s.Open).2 = Except.ok s.nextStreamID ∧
      (s.Open).1.nextStreamID = s.nextStreamID + 2) := by
  have hmod : s.nextStreamID < maxUint32 - 1 →
      u32 (s.nextStreamID + 2) = s.nextStreamID + 2 := by
    intro hlt
    have h2 : s.nextStreamID + 2 < uint32Card := by
      unfold maxUint32 at hlt
      unfold uint32Card
      omega
    exact Nat.mod_eq_of_lt h2
  by_cases hge : s.nextStreamID ≥ maxUint32 - 1
  · unfold Session.Open Session.isShutdown
    simp [hs, hg, hge]
  · have hlt : s.nextStreamID < maxUint32 - 1 := not_le.mp hge
    unfold Session.Open Session.isShutdown Session.sendNoWait
    simp [hs, hg, hge, hmod hlt]

/-- C4 witness: a fresh client session opens stream 1 and advances
`nextStreamID` to 3. -/
theorem c4_open_exhaustion_iff_witness :
    ((newSession 256 true).Open).2 = Except.ok 1 ∧
    ((newSession 256 true).Open).1.nextStreamID = 3 := by
  have h := c4_open_exhaustion_iff (newSession 256 true) rfl rfl
  have h2 := h.2 (by decide)
  exact ⟨h2.1, h2.2⟩

/-- C5: `Close` is idempotent: a first call on a non-shut-down session
returns `nil`, sets `shutdown`, records `SessionShutdown` when no error
was recorded (otherwise keeps the recorded one), closes the shutdown
channel and the transport, and force-closes every stream in the table;
calling `Close` again returns `nil` and leaves the state unchanged. -/
theorem c5_close_idempotent (s : Session) (h : s.shutdown = false) :
    (s.Close).2 = none ∧
    (s.Close).1.shutdown = true ∧
    (s.Close).1.shutdownErr =
      some (s.shutdownErr.getD YamuxErr.sessionShutdown) ∧
    (s.Close).1.shutdownChClosed = true ∧
    (s.Close).1.connClosed = true ∧
    (∀ p ∈ (s.Close).1.streams, p.2.state = StreamState.streamClosed) ∧
    Session.Close (s.Close).1 = ((s.Close).1, none) := by
  refine ⟨?_, ?_, ?_, ?_, ?_, ?_, ?_⟩
  · simp [Session.Close, h]
  · simp [Session.Close, h]
  · simp [Session.Close, h]
  · simp [Session.Close, h]
  · simp [Session.Close, h]
  · intro p hp
    simp only [Session.Close, h, Bool.false_eq_true, if_false,
      List.mem_map] at hp
    obtain ⟨q, _, hq⟩ := hp
    rw [← hq]
    rfl
  · simp [Session.Close, h]

/-- C5 witness: a concrete session that already recorded a cause. -/
theorem c5_close_idempotent_witness :
    (({ newSession 4 true with
          shutdownErr := some YamuxErr.missingStream,
          streams := [(1, newStream 1 StreamState.streamEstablished)] } :
        Session).Close).1.shutdownErr = some YamuxErr.missingStream := by
  exact (c5_close_idempotent _ rfl).2.2.1

/-- C8: a GoAway frame with reason `Normal` sets `remoteGoAway` and the
receive loop continues; reasons `ProtoErr` and `InternalErr` make the
loop stop and shut the session down with the corresponding error. -/
theorem c8_goaway_codes (s : Session) (hdr : Header)
    (hs : s.shutdownChClosed = false)
    (hv : hdr.version = protoVersion)
    (ht : hdr.msgType = typeGoAway) :
    (hdr.length = goAwayNormal →
      s.recvStep hdr = ({ s with remoteGoAway := true }, true)) ∧
    (hdr.length = goAwayProtoErr →
      (s.recvStep hdr).2 = false ∧
      (s.recvStep hdr).1.shutdown = true ∧
      (s.recvStep hdr).1.shutdownErr = some YamuxErr.protoError) ∧
    (hdr.length = goAwayInternalErr →
      (s.recvStep hdr).2 = false ∧
      (s.recvStep hdr).1.shutdown = true ∧
      (s.recvStep hdr).1.shutdownErr = some YamuxErr.remoteInternalError) := by
  refine ⟨?_, ?_, ?_⟩
  · intro hc
    have hga : s.handleGoAway hdr = ({ s with remoteGoAway := true }, none) := by
      unfold Session.handleGoAway
      simp [hc, goAwayNormal]
    unfold Session.recvStep Session.isShutdown
    simp [hs, hv, ht, hga, typeData, typeWindowUpdate, typeGoAway]
  · intro hc
    have hga : s.handleGoAway hdr = (s, some YamuxErr.protoError) := by
      unfold Session.handleGoAway
      simp [hc, goAwayNormal, goAwayProtoErr]
    have hrs : s.recvStep hdr = (s.exitErr YamuxErr.protoError, false) := by
      unfold Session.recvStep Session.isShutdown
      simp [hs, hv, ht, hga, typeData, typeWindowUpdate, typeGoAway]
    rw [hrs]
    exact ⟨rfl, (exitErr_shutdown s _).1, (exitErr_shutdown s _).2⟩
  · intro hc
    have hga : s.handleGoAway hdr =
        (s, some YamuxErr.remoteInternalError) := by
      unfold Session.handleGoAway
      simp [hc, goAwayNormal, goAwayProtoErr, goAwayInternalErr]
    have hrs : s.recvStep hdr =
        (s.exitErr YamuxErr.remoteInternalError, false) := by
      unfold Session.recvStep Session.isShutdown
      simp [hs, hv, ht, hga, typeData, typeWindowUpdate, typeGoAway]
    rw [hrs]
    exact ⟨rfl, (exitErr_shutdown s _).1, (exitErr_shutdown s _).2⟩

/-- C8 witness: concrete GoAway frames with reasons 0 and 1. -/
theorem c8_goaway_codes_witness :
    (newSession 256 true).recvStep (encodeHeader typeGoAway 0 0 goAwayNormal) =
      ({ newSession 256 true with remoteGoAway := true }, true) ∧
    ((newSession 256 true).recvStep
        (encodeHeader typeGoAway 0 0 goAwayProtoErr)).1.shutdownErr =
      some YamuxErr.protoError := by
  refine ⟨(c8_goaway_codes _ _ rfl rfl rfl).1 rfl, ?_⟩
  exact ((c8_goaway_codes _ _ rfl rfl rfl).2.1 rfl).2.2

/-- C9: a GoAway frame whose reason code is outside {0, 1, 2} stops the
receive loop and shuts the session down with the "unexpected go away"
error, leaving `remoteGoAway` untouched. -/
theorem c9_goaway_unknown_code (s : Session) (hdr : Header)
    (hs : s.shutdownChClosed = false)
    (hv : hdr.version = protoVersion)
    (ht : hdr.msgType = typeGoAway)
    (hc0 : hdr.length ≠ goAwayNormal)
    (hc1 : hdr.length ≠ goAwayProtoErr)
    (hc2 : hdr.length ≠ goAwayInternalErr) :
    (s.recvStep hdr).2 = false ∧
    (s.recvStep hdr).1.shutdown = true ∧
    (s.recvStep hdr).1.shutdownErr = some YamuxErr.unexpectedGoAway ∧
    (s.recvStep hdr).1.remoteGoAway = s.remoteGoAway := by
  have hga : s.handleGoAway hdr = (s, some YamuxErr.unexpectedGoAway) := by
    unfold Session.handleGoAway
    simp [hc0, hc1, hc2]
  have hrs : s.recvStep hdr = (s.exitErr YamuxErr.unexpectedGoAway, false) := by
    unfold Session.recvStep Session.isShutdown
    simp [hs, hv, ht, hga, typeData, typeWindowUpdate, typeGoAway]
  rw [hrs]
  exact ⟨rfl, (exitErr_shutdown s _).1, (exitErr_shutdown s _).2,
    exitErr_remoteGoAway s _⟩

/-- C9 witness: reason code 7. -/
theorem c9_goaway_unknown_code_witness :
    ((newSession 256 true).recvStep
        (encodeHeader typeGoAway 0 0 7)).1.shutdownErr =
      some YamuxErr.unexpectedGoAway := by
  exact (c9_goaway_unknown_code _ _ rfl rfl rfl (by decide) (by decide)
    (by decide)).2.2.1

/-- C10: a Ping frame without SYN whose ping id has no pending waiter
leaves the whole session state unchanged and the receive loop running. -/
theorem c10_unsolicited_ping_ack_ignored (s : Session) (hdr : Header)
    (hs : s.shutdownChClosed = false)
    (hv : hdr.version = protoVersion)
    (ht : hdr.msgType = typePing)
    (hsyn : hdr.flags &&& flagSYN ≠ flagSYN)
    (hid : s.pings.contains hdr.length = false) :
    s.handlePing hdr = (s, none) ∧ s.recvStep hdr = (s, true) := by
  have hp : s.handlePing hdr = (s, none) := by
    unfold Session.handlePing
    simp only [hsyn, if_false, hid, Bool.false_eq_true]
  refine ⟨hp, ?_⟩
  unfold Session.recvStep Session.isShutdown
  simp only [hs, hv, ht]
  simp [typePing, typeData, typeWindowUpdate, typeGoAway, hp]

/-- The C1 scenario: a server session that has issued a local go-away
and holds no streams. -/
def c1Sess : Session := { newSession 256 false with localGoAway := true }

/-- The C1 frame: a WindowUpdate carrying SYN for the unknown id 3. -/
def c1Hdr : Header := encodeHeader typeWindowUpdate flagSYN 3 0

/-- C1: with `localGoAway` set, a SYN frame for an unknown id is
RST-rejected and no stream is created — but, contrary to the claim, the
receive loop then falls into the missing-stream branch, also emits
`GoAway(ProtoErr)`, stops, and shuts the session down recording
`MissingStream`: handling that frame does terminate the session. -/
theorem c1_local_goaway_syn_kills_session :
    encodeHeader typeWindowUpdate flagRST 3 0 ∈
      (c1Sess.recvStep c1Hdr).1.sent ∧
    (c1Sess.recvStep c1Hdr).1.streams.lookup 3 = none ∧
    (c1Sess.recvStep c1Hdr).2 = false ∧
    (c1Sess.recvStep c1Hdr).1.shutdown = true ∧
    (c1Sess.recvStep c1Hdr).1.shutdownErr = some YamuxErr.missingStream ∧
    encodeHeader typeGoAway 0 0 goAwayProtoErr ∈
      (c1Sess.recvStep c1Hdr).1.sent := by
  decide

/-- The C2 scenario: AcceptBacklog 1 with the accept queue already
holding stream 1, which is also in the stream table. -/
def c2Sess : Session :=
  { newSession 1 false with
      acceptCh := [1]
      streams := [(1, newStream 1 StreamState.streamSYNReceived)] }

/-- The C2 frame: a WindowUpdate carrying SYN for the new id 3. -/
def c2Hdr : Header := encodeHeader typeWindowUpdate flagSYN 3 0

/-- C2: an incoming SYN over a full accept queue is removed from the
stream table and RST-rejected — but, contrary to the claim, the receive
loop then falls into the missing-stream branch, emits `GoAway(ProtoErr)`,
stops, and shuts the session down recording `MissingStream`: the
rejection is not confined to that one stream. -/
theorem c2_backlog_overflow_kills_session :
    (c2Sess.recvStep c2Hdr).1.streams.lookup 3 = none ∧
    encodeHeader typeWindowUpdate flagRST 3 0 ∈
      (c2Sess.recvStep c2Hdr).1.sent ∧
    (c2Sess.recvStep c2Hdr).2 = false ∧
    (c2Sess.recvStep c2Hdr).1.shutdown = true ∧
    (c2Sess.recvStep c2Hdr).1.shutdownErr = some YamuxErr.missingStream := by
  decide

/-- The C3 scenario: a session on which `close()` has returned after the
receive loop recorded `MissingStream` as the shutdown cause. -/
def c3Sess : Session :=
  { newSession 256 true with
      shutdown := true
      shutdownChClosed := true
      connClosed := true
      shutdownErr := some YamuxErr.missingStream }

/-- C3 counterexample: on a closed session whose recorded cause is
`MissingStream`, `AcceptStream` returns that recorded error, not
`SessionShutdown` — the claim's "the error returned is SessionShutdown
regardless of which error was recorded" is false for `AcceptStream`. -/
theorem c3_accept_returns_recorded_cause :
    c3Sess.AcceptStream =
      some (c3Sess, Except.error YamuxErr.missingStream) ∧
    YamuxErr.missingStream ≠ YamuxErr.sessionShutdown := by
  exact ⟨rfl, by decide⟩

/-- C3 (amended): after `close()` has returned, `Open` and `Ping` fail
with `SessionShutdown`, while `AcceptStream` (once the accept queue is
empty) fails with the recorded shutdown error, which is `SessionShutdown`
exactly when that was the recorded cause. -/
theorem c3_post_close_ops_fail (s : Session) (e : YamuxErr)
    (hs : s.shutdownChClosed = true)
    (hq : s.acceptCh = [])
    (he : s.shutdownErr = some e) :
    (s.Open).2 = Except.error YamuxErr.sessionShutdown ∧
    (s.Ping).2 = Except.error YamuxErr.sessionShutdown ∧
    s.AcceptStream = some (s, Except.error e) := by
  refine ⟨?_, ?_, ?_⟩
  · unfold Session.Open Session.isShutdown
    simp [hs]
  · unfold Session.Ping Session.waitForSend
    simp [hs]
  · unfold Session.AcceptStream
    simp [hq, hs, he]

/-- C3 witness: the amended behaviour at the concrete closed session. -/
theorem c3_post_close_ops_fail_witness :
    (c3Sess.Open).2 = Except.error YamuxErr.sessionShutdown ∧
    (c3Sess.Ping).2 = Except.error YamuxErr.sessionShutdown ∧
    c3Sess.AcceptStream =
      some (c3Sess, Except.error YamuxErr.missingStream) := by
  exact c3_post_close_ops_fail c3Sess YamuxErr.missingStream rfl rfl rfl

/-- C7: a Data or WindowUpdate frame without SYN for an id absent from
the stream table makes the receive loop emit `GoAway(ProtoErr)`, stop,
and shut the session down with `MissingStream` recorded. -/
theorem c7_missing_stream_terminates (s : Session) (hdr : Header)
    (hs : s.shutdownChClosed = false)
    (hv : hdr.version = protoVersion)
    (ht : hdr.msgType = typeData ∨ hdr.msgType = typeWindowUpdate)
    (hsyn : hdr.flags &&& flagSYN ≠ flagSYN)
    (hmiss : s.streams.lookup hdr.streamID = none) :
    (s.recvStep hdr).2 = false ∧
    (s.recvStep hdr).1.shutdown = true ∧
    (s.recvStep hdr).1.shutdownErr = some YamuxErr.missingStream ∧
    encodeHeader typeGoAway 0 0 goAwayProtoErr ∈
      (s.recvStep hdr).1.sent := by
  have hsm : s.handleStreamMessage hdr =
      (s.goAwaySend goAwayProtoErr, some YamuxErr.missingStream) := by
    unfold Session.handleStreamMessage
    simp [hsyn, hmiss]
  have hrs : s.recvStep hdr =
      ((s.goAwaySend goAwayProtoErr).exitErr YamuxErr.missingStream,
        false) := by
    unfold Session.recvStep Session.isShutdown
    rcases ht with ht | ht <;>
      simp [hs, hv, ht, hsm, typeData, typeWindowUpdate]
  have hsent : (s.goAwaySend goAwayProtoErr).sent =
      s.sent ++ [encodeHeader typeGoAway 0 0 goAwayProtoErr] := by
    unfold Session.goAwaySend Session.sendNoWait
    simp [hs]
  rw [hrs]
  refine ⟨rfl, (exitErr_shutdown _ _).1, (exitErr_shutdown _ _).2, ?_⟩
  rw [exitErr_sent, hsent]
  simp

/-- C7 witness: a Data frame for the unknown id 5 on a fresh server
session. -/
theorem c7_missing_stream_terminates_witness :
    (((newSession 256 false).recvStep
        (encodeHeader typeData 0 5 0)).1.shutdownErr =
      some YamuxErr.missingStream) ∧
    encodeHeader typeGoAway 0 0 goAwayProtoErr ∈
      ((newSession 256 false).recvStep (encodeHeader typeData 0 5 0)).1.sent := by
  have h := c7_missing_stream_terminates (newSession 256 false)
    (encodeHeader typeData 0 5 0) rfl rfl (Or.inl rfl) (by decide) rfl
  exact ⟨h.2.2.1, h.2.2.2⟩

/-- C10 witness: ping id 9 with no waiter registered. -/
theorem c10_unsolicited_ping_ack_ignored_witness :
    ({ newSession 256 true with pings := [4] } : Session).recvStep
      (encodeHeader typePing flagACK 0 9) =
      ({ newSession 256 true with pings := [4] }, true) := by
  exact (c10_unsolicited_ping_ack_ignored _ _ rfl rfl rfl (by decide)
    (by decide)).2

/-- C6: `nextStreamID` starts at 1 on a client session and 2 on a
server session, and every sequence of successful `Open` calls returns
ids of the matching parity that are pairwise distinct and strictly
increase by 2 in call order. -/
theorem c6_open_ids_parity_monotone (backlog n : Nat) (client : Bool)
    (h : 2 + 2 * n < maxUint32 - 1) :
    (newSession backlog client).nextStreamID = (if client then 1 else 2) ∧
    ((newSession backlog client).openN n).2 =
      (List.range n).map (fun i => (if client then 1 else 2) + 2 * i) ∧
    (∀ id ∈ ((newSession backlog client).openN n).2,
      id % 2 = (if client then 1 else 0)) ∧
    List.Pairwise (fun a b => a < b)
      ((newSession backlog client).openN n).2 := by
  have hinit : (newSession backlog client).nextStreamID =
      (if client then 1 else 2) := by
    cases client <;> rfl
  have hbound : (newSession backlog client).nextStreamID + 2 * n <
      maxUint32 - 1 := by
    rw [hinit]
    cases client <;> simp <;> omega
  have hids := openN_ids_eq n (newSession backlog client) rfl rfl hbound
  rw [hinit] at hids
  refine ⟨hinit, hids, ?_, ?_⟩
  · intro id hid
    rw [hids] at hid
    simp only [List.mem_map, List.mem_range] at hid
    obtain ⟨i, _, hi⟩ := hid
    cases client <;> simp at hi ⊢ <;> omega
  · rw [hids, List.pairwise_map]
    apply List.Pairwise.imp ?_ (List.pairwise_lt_range n)
    intro a b hab
    cases client <;> simp <;> omega

/-- C6 witness: three opens on a fresh client session yield 1, 3, 5. -/
theorem c6_open_ids_parity_monotone_witness :
    ((newSession 256 true).openN 3).2 = [1, 3, 5] ∧
    (∀ id ∈ ((newSession 256 true).openN 3).2, id % 2 = 1) ∧
    List.Pairwise (fun a b => a < b) ((newSession 256 true).openN 3).2 := by
  have h := c6_open_ids_parity_monotone 256 3 true (by decide)
  refine ⟨?_, ?_, h.2.2.2⟩
  · rw [h.2.1]
    decide
  · intro id hid
    simpa using h.2.2.1 id hid

end Yamux
